import Mathlib

/-!
Verification of the dialog-integrations data pipeline.

This file is a shallow embedding, in Lean, of the regulation-integration
pipeline: the generic duplicate-dropping engine, the dp_sarthes speed-limit
integration (`compute_vitesse`, `build_id_and_drop_duplicates`,
`create_regulations`), the Sarthe restriction-gabarits field computations
(`compute_vehicle_fields`, `compute_regulation_fields`), the base integration
(`create_measure`, `create_regulations`, `create_save_vehicle_dto`, the
remote-identifier diff of `integrate_regulations`) and the schema validation
step (`validate_raw_data`).

Modelling conventions:
- tabular batches are lists of typed row structures, one structure per
  source schema, carrying exactly the columns the verified functions read;
- polars expressions become row-wise Lean functions, filters become
  `List.filter`, anti-joins become filters against the duplicated key list;
- the unordered `group_by` of polars does not guarantee the order in which
  groups are emitted, so the group order is an explicit parameter `order`
  ranging over the permutations of the key set (rows inside one group keep
  the frame order, which polars does guarantee);
- the 64-bit seeded polars hash is an uninterpreted parameter
  `hash : Option String → Nat` reduced modulo `2 ^ 64` (its one relevant
  property); casting an unsigned integer column to Utf8 is decimal
  rendering, modelled by `natDecimalDigits`;
- floating-point columns are modelled by `ℚ` (the verified comparisons and
  the ×1000 conversion are exact at every value exercised here);
- enum values of the generated API client (which lives outside the
  repository sources) are modelled by the member strings the spec names,
  and `MeasureTypeEnum` by an inductive with the two members the pipelines
  construct;
- exceptions caught per row become `Option`, exceptions that abort become
  `Except`.
-/

namespace DialogIntegrations

/-- Number of rows of `rows` whose key equals `i`: the group size that
`df.group_by(key).len()` reports for key value `i`. -/
def keyCount {ρ α : Type} [DecidableEq α] (key : ρ → α) (rows : List ρ) (i : α) : Nat :=
  rows.countP (fun r => decide (key r = i))

/-- The key values occurring on more than one row: the
`group_by(key).len().filter(len > 1)` step shared by
`build_id_and_drop_duplicates` and `compute_regulation_fields`. -/
def duplicated_ids {ρ α : Type} [DecidableEq α] (key : ρ → α) (rows : List ρ) : List α :=
  ((rows.map key).dedup).filter (fun i => decide (1 < keyCount key rows i))

/-- The anti-join `df.join(dup_ids, on=key, how="anti")`: every row whose key
is a duplicated key is dropped; all other rows pass through in order. -/
def anti_join_dups {ρ α : Type} [DecidableEq α] (key : ρ → α) (rows : List ρ) : List ρ :=
  rows.filter (fun r => decide (key r ∉ duplicated_ids key rows))

/-- Decimal digit list of a natural number, most significant digit first:
what casting an unsigned integer column to `pl.Utf8` renders. -/
def natDecimalDigits (n : Nat) : List Char :=
  if n = 0 then [Char.ofNat 48] else ((Nat.digits 10 n).map Nat.digitChar).reverse

/-- Decimal string of a natural number. -/
def natDecimalString (n : Nat) : String :=
  String.mk (natDecimalDigits n)

/-- Decimal string of an integer (cast of an integer column to `pl.Utf8`). -/
def intDecimalString (i : Int) : String :=
  if i < 0 then "-" ++ natDecimalString i.natAbs else natDecimalString i.natAbs

/-- The measure types this repository's pipelines construct
(`MeasureTypeEnum.SPEEDLIMITATION` and `MeasureTypeEnum.NOENTRY` of the
generated client). -/
inductive MeasureType where
  | speedLimitation
  | noEntry
deriving DecidableEq

/-- A value assigned to one `vehicle_` field of a row: `None`, a boolean, a
number, a string, or a list of enum strings. -/
inductive VehValue where
  | null
  | b (value : Bool)
  | q (value : ℚ)
  | s (value : String)
  | strs (value : List String)
deriving DecidableEq

/-- SavePeriodDTO of the API client, restricted to the period fields the
`RegulationMeasure` rows carry. -/
structure SavePeriodDTO where
  start_date : Option String
  end_date : Option String
  start_time : Option String
  end_time : Option String
  recurrence_type : Option String
  is_permanent : Option Bool
deriving DecidableEq

/-- SaveLocationDTO of the API client: a road type together with the raw
GeoJSON payload (label + geometry). -/
structure SaveLocationDTO where
  road_type : String
  label : Option String
  geometry : String
deriving DecidableEq

/-- SaveMeasureDTO of the API client; the vehicle set is the list of fields
actually passed to SaveVehicleSetDTO. -/
structure SaveMeasureDTO where
  type_ : MeasureType
  max_speed : Option Int
  periods : List SavePeriodDTO
  locations : List SaveLocationDTO
  vehicle_set : List (String × VehValue)
deriving DecidableEq

/-- PostApiRegulationsAddBody: one assembled regulation. -/
structure Regulation where
  identifier : String
  category : String
  status : String
  subject : String
  title : String
  other_category_text : String
  measures : List SaveMeasureDTO
deriving DecidableEq

/-- One row of the canonical `RegulationMeasure` shape
(base_data_source_integration.py). -/
structure RegulationMeasure where
  period_start_date : Option String
  period_end_date : Option String
  period_start_time : Option String
  period_end_time : Option String
  period_recurrence_type : Option String
  period_is_permanent : Option Bool
  location_road_type : String
  location_label : Option String
  location_geometry : String
  regulation_identifier : String
  regulation_category : String
  regulation_subject : String
  regulation_title : String
  regulation_other_category_text : String
  measure_type_ : MeasureType
  measure_max_speed : Option Int
  vehicle_all_vehicles : Bool
  vehicle_heavyweight_max_weight : Option ℚ
  vehicle_max_height : Option ℚ
  vehicle_max_width : Option ℚ
  vehicle_exempted_types : Option (List String)
  vehicle_restricted_types : Option (List String)
  vehicle_other_exempted_type_text : Option String
deriving DecidableEq

namespace Base

/-- Modelled from the spec: the road-type enum members of the generated
client (`RoadTypeEnum`); only the rawGeoJson member is produced by the
sources, and constructing the enum from any other string raises. -/
def roadTypeValues : List String := ["rawGeoJson"]

/-- create_save_period_dto: strip the `period_` prefix and pass the fields
through positionally. -/
def create_save_period_dto (m : RegulationMeasure) : SavePeriodDTO :=
  { start_date := m.period_start_date
    end_date := m.period_end_date
    start_time := m.period_start_time
    end_time := m.period_end_time
    recurrence_type := m.period_recurrence_type
    is_permanent := m.period_is_permanent }

/-- create_save_location_dto: `RoadTypeEnum(location_road_type)` raises on a
string that is not an enum member (modelled as `none`); label and geometry
are wrapped as the raw GeoJSON payload. -/
def create_save_location_dto (m : RegulationMeasure) : Option SaveLocationDTO :=
  if m.location_road_type ∈ roadTypeValues then
    some { road_type := m.location_road_type
           label := m.location_label
           geometry := m.location_geometry }
  else none

/-- The `vehicle_` fields of a row, prefix stripped, in declaration order:
the dict create_save_vehicle_dto iterates over. -/
def vehicle_fields (m : RegulationMeasure) : List (String × VehValue) :=
  [("all_vehicles", VehValue.b m.vehicle_all_vehicles),
   ("heavyweight_max_weight",
     match m.vehicle_heavyweight_max_weight with
     | none => VehValue.null
     | some v => VehValue.q v),
   ("max_height",
     match m.vehicle_max_height with
     | none => VehValue.null
     | some v => VehValue.q v),
   ("max_width",
     match m.vehicle_max_width with
     | none => VehValue.null
     | some v => VehValue.q v),
   ("exempted_types",
     match m.vehicle_exempted_types with
     | none => VehValue.null
     | some l => VehValue.strs l),
   ("restricted_types",
     match m.vehicle_restricted_types with
     | none => VehValue.null
     | some l => VehValue.strs l),
   ("other_exempted_type_text",
     match m.vehicle_other_exempted_type_text with
     | none => VehValue.null
     | some v => VehValue.s v)]

/-- The Python test `v in (None, [], {})`: true exactly for `None`, the empty
list and the empty mapping (no field of `RegulationMeasure` carries a
mapping, so the empty mapping is unrepresentable here). -/
def vehValueEmpty : VehValue → Bool
  | VehValue.null => true
  | VehValue.strs [] => true
  | _ => false

/-- The cleaning step of create_save_vehicle_dto: drop every field whose
value is `None`, the empty list or the empty mapping. -/
def cleaned_vehicle_fields (m : RegulationMeasure) : List (String × VehValue) :=
  (vehicle_fields m).filter (fun kv => ! vehValueEmpty kv.2)

/-- `dict.get`: the value stored under key `k`, when present. -/
def lookupField (k : String) (l : List (String × VehValue)) : Option VehValue :=
  (l.find? (fun kv => decide (kv.1 = k))).map Prod.snd

/-- create_save_vehicle_dto: drop empty fields; when the only surviving field
is `all_vehicles = True`, collapse to the minimal all-vehicles set. -/
def create_save_vehicle_dto (m : RegulationMeasure) : List (String × VehValue) :=
  if lookupField ("all_vehicles") (cleaned_vehicle_fields m) = some (VehValue.b true)
      ∧ (cleaned_vehicle_fields m).length = 1 then
    [("all_vehicles", VehValue.b true)]
  else cleaned_vehicle_fields m

/-- create_measure: builds the period, location and vehicle payloads, and,
for a speed-limitation row, additionally requires `measure_max_speed`
(`int(None)` raises; after schema coercion the column is integer, so a
present value converts). Any raised exception is caught by the caller and
the row is skipped, modelled by `none`. -/
def create_measure (m : RegulationMeasure) : Option SaveMeasureDTO :=
  match create_save_location_dto m with
  | none => none
  | some loc =>
    match m.measure_type_ with
    | MeasureType.speedLimitation =>
      match m.measure_max_speed with
      | none => none
      | some v =>
        some { type_ := MeasureType.speedLimitation
               max_speed := some v
               periods := [create_save_period_dto m]
               locations := [loc]
               vehicle_set := create_save_vehicle_dto m }
    | t =>
      some { type_ := t
             max_speed := none
             periods := [create_save_period_dto m]
             locations := [loc]
             vehicle_set := create_save_vehicle_dto m }

/-- The distinct regulation identifiers of a batch (the key set of
`group_by("regulation_identifier")`). -/
def group_keys (rows : List RegulationMeasure) : List String :=
  (rows.map (fun r => r.regulation_identifier)).dedup

/-- The rows of one group, in frame order (polars keeps the order of rows
inside each group). -/
def group_rows (rows : List RegulationMeasure) (i : String) : List RegulationMeasure :=
  rows.filter (fun r => decide (r.regulation_identifier = i))

/-- The regulation assembled from one group: one measure per row, rows whose
measure construction raises are skipped (the error is logged); a group with
no surviving measure yields no regulation; regulation-level fields come from
the first row of the group. -/
def regulation_of_group : List RegulationMeasure → Option Regulation
  | [] => none
  | first :: rest =>
    if (first :: rest).filterMap create_measure = [] then none
    else
      some { identifier := first.regulation_identifier
             category := first.regulation_category
             status := "draft"
             subject := first.regulation_subject
             title := first.regulation_title
             other_category_text := first.regulation_other_category_text
             measures := (first :: rest).filterMap create_measure }

/-- create_regulations: one regulation per group of
`group_by("regulation_identifier")`. The group order `order` is whatever
permutation of the key set the unordered group_by emits. -/
def create_regulations (order : List String) (rows : List RegulationMeasure) :
    List Regulation :=
  order.filterMap (fun i => regulation_of_group (group_rows rows i))

/-- The identifier of a regulation together with its measure count: the
set-level summary the grouping-determinism property speaks about. -/
def reg_summary (r : Regulation) : String × Nat :=
  (r.identifier, r.measures.length)

/-- The loop of integrate_regulations that appends the literal suffix `-0`
to every regulation identifier and stamps the integration status. -/
def suffix_regulations (regs : List Regulation) : List Regulation :=
  regs.map (fun r => { r with identifier := r.identifier ++ "-0", status := "draft" })

/-- The set difference `{identifiers of the assembled regulations} - {remote
identifiers}` of integrate_regulations (membership semantics of the Python
set, kept as a list). -/
def regulation_ids_to_integrate (regs : List Regulation) (remote : List String) :
    List String :=
  (regs.map (fun r => r.identifier)).filter (fun i => decide (i ∉ remote))

/-- The filter of integrate_regulations keeping only regulations whose
identifier is in the diff. -/
def regulations_to_integrate (regs : List Regulation) (remote : List String) :
    List Regulation :=
  regs.filter (fun r => decide (r.identifier ∈ regulation_ids_to_integrate regs remote))

/-- integrate_regulations, from the assembled regulations and the fetched
remote identifier set to the list actually submitted: suffix the
identifiers, then keep exactly the regulations whose identifier the remote
system does not already know. -/
def integrate_regulations (regs : List Regulation) (remote : List String) :
    List Regulation :=
  regulations_to_integrate (suffix_regulations regs) remote

end Base

namespace DpSarthes

/-- One raw row of the dp_sarthes speed-limit CSV, restricted to the columns
the verified functions read; `vitesse` is the `VITESSE` column after the
`cast(pl.Int64)` that opens compute_vitesse. -/
structure SartheRow where
  loc_txt : Option String
  vitesse : Option Int
  longueur : Option String
deriving DecidableEq

/-- The invalid-speed predicate of compute_vitesse:
`VITESSE.is_null() | (VITESSE <= 0) | (VITESSE > 130)`. -/
def vitesseInvalid (r : SartheRow) : Bool :=
  match r.vitesse with
  | none => true
  | some v => decide (v ≤ 0) || decide (130 < v)

/-- compute_vitesse: keep exactly the rows whose cast `VITESSE` is non-null,
positive and at most 130. -/
def compute_vitesse (rows : List SartheRow) : List SartheRow :=
  rows.filter (fun r => ! vitesseInvalid r)

/-- The `pl.concat_str([loc_txt, VITESSE, longueur], separator="|")` key of
build_id_and_drop_duplicates; concat_str propagates null: the key is null
as soon as one participating field is null. -/
def rowKey (r : SartheRow) : Option String :=
  match r.loc_txt, r.vitesse, r.longueur with
  | some a, some v, some l => some (a ++ "|" ++ intDecimalString v ++ "|" ++ l)
  | _, _, _ => none

/-- The derived identifier of one row: the seeded 64-bit polars hash of the
key (an uninterpreted function into `2 ^ 64` values), cast to its decimal
Utf8 rendering and sliced to the first 32 characters. -/
def buildId (hash : Option String → Nat) (r : SartheRow) : String :=
  String.mk ((natDecimalDigits (hash (rowKey r) % 2 ^ 64)).take 32)

/-- build_id_and_drop_duplicates: attach the derived id column, then drop
every row whose id occurs on more than one row. -/
def build_id_and_drop_duplicates (hash : Option String → Nat) (rows : List SartheRow) :
    List (SartheRow × String) :=
  anti_join_dups Prod.snd (rows.map (fun r => (r, buildId hash r)))

/-- One clean row of the dp_sarthes pipeline as selected at the end of
compute_clean_data. -/
structure SartheCleanRow where
  id : String
  title : String
  max_speed : Int
  start_date : Option String
  geometry : String
  label : String
deriving DecidableEq

/-- create_measure of the dp_sarthes integration: a speed-limitation measure
over the full-day permanent period, the raw GeoJSON location and the
all-vehicles set. -/
def create_measure (r : SartheCleanRow) : SaveMeasureDTO :=
  { type_ := MeasureType.speedLimitation
    max_speed := some r.max_speed
    periods := [{ start_date := r.start_date
                  end_date := none
                  start_time := none
                  end_time := none
                  recurrence_type := some ("everyDay")
                  is_permanent := some true }]
    locations := [{ road_type := "rawGeoJson"
                    label := some r.label
                    geometry := r.geometry }]
    vehicle_set := [("all_vehicles", VehValue.b true)] }

/-- create_regulations of the dp_sarthes integration: one draft regulation
per clean row, the row id used as the identifier unchanged (no suffix is
ever appended on this path). -/
def create_regulations (rows : List SartheCleanRow) : List Regulation :=
  rows.map (fun r =>
    { identifier := r.id
      category := "permanentRegulation"
      status := "draft"
      subject := "other"
      title := r.title
      other_category_text := "Limitation de vitesse"
      measures := [create_measure r] })

end DpSarthes

namespace Gabarits

/-- One validated row of the Sarthe restriction-gabarits source, restricted
to the columns the verified functions read. -/
structure GabaritsRow where
  objectid : Int
  nature : Option String
  site : Option String
  tonnage : Option ℚ
  hauteur : Option ℚ
  largeur : Option ℚ
deriving DecidableEq

/-- The vehicle field group computed by compute_vehicle_fields. -/
structure VehicleFields where
  vehicle_all_vehicles : Bool
  vehicle_heavyweight_max_weight : Option ℚ
  vehicle_max_height : Option ℚ
  vehicle_max_width : Option ℚ
  vehicle_exempted_types : List String
  vehicle_restricted_types : List String
  vehicle_other_exempted_type_text : Option String
deriving DecidableEq

/-- compute_vehicle_fields: tonnage is converted tons→kilograms (×1000) when
present and strictly positive and is null otherwise; hauteur and largeur
pass through only when present and strictly positive; the restricted types
are heavy-goods when a positive tonnage is present and dimensions
otherwise. -/
def compute_vehicle_fields (r : GabaritsRow) : VehicleFields :=
  { vehicle_all_vehicles := false
    vehicle_heavyweight_max_weight :=
      match r.tonnage with
      | some t => if 0 < t then some (t * 1000) else none
      | none => none
    vehicle_max_height :=
      match r.hauteur with
      | some h => if 0 < h then some h else none
      | none => none
    vehicle_max_width :=
      match r.largeur with
      | some w => if 0 < w then some w else none
      | none => none
    vehicle_exempted_types := []
    vehicle_restricted_types :=
      match r.tonnage with
      | some t => if 0 < t then ["heavyGoodsVehicle"] else ["dimensions"]
      | none => ["dimensions"]
    vehicle_other_exempted_type_text := none }

/-- The regulation field group computed by compute_regulation_fields for one
surviving row. -/
structure RegulationFields where
  regulation_identifier : String
  regulation_category : String
  regulation_subject : String
  regulation_title : String
  regulation_other_category_text : String
deriving DecidableEq

/-- The with_columns step of compute_regulation_fields: identifier from
objectid, fixed category and subject, title `objectid - nature - site` with
nulls filled by the empty string. -/
def regulation_fields_of (r : GabaritsRow) : RegulationFields :=
  { regulation_identifier := intDecimalString r.objectid
    regulation_category := "permanentRegulation"
    regulation_subject := "other"
    regulation_title :=
      intDecimalString r.objectid ++ " - " ++ r.nature.getD "" ++ " - " ++ r.site.getD ""
    regulation_other_category_text := "Circulation" }

/-- compute_regulation_fields: drop every row whose objectid is duplicated,
then attach the regulation fields. -/
def compute_regulation_fields (rows : List GabaritsRow) :
    List (GabaritsRow × RegulationFields) :=
  (anti_join_dups GabaritsRow.objectid rows).map (fun r => (r, regulation_fields_of r))

end Gabarits

namespace Validation

/-- A raw tabular batch: named columns of nullable cells (cell contents are
abstracted to strings; the verified properties do not depend on them). -/
structure Batch where
  cols : List (String × List (Option String))
deriving DecidableEq

/-- The cells of column `c` (the empty column when absent). -/
def getCol (df : Batch) (c : String) : List (Option String) :=
  match df.cols.find? (fun kv => decide (kv.1 = c)) with
  | some kv => kv.2
  | none => []

/-- Whether the batch has a column named `c`. -/
def hasCol (df : Batch) (c : String) : Bool :=
  decide (c ∈ df.cols.map Prod.fst)

/-- The first declared column missing from the batch, if any: `df.select`
raises a column-not-found error naming it. -/
def firstMissing (declared : List String) (df : Batch) : Option String :=
  declared.find? (fun c => ! hasCol df c)

/-- The column restriction performed by `df.select(columns_to_keep)` when
every declared column exists: exactly the declared columns, in declaration
order; extra columns are dropped. -/
def selectColumns (declared : List String) (df : Batch) : Batch :=
  { cols := declared.map (fun c => (c, getCol df c)) }

/-- The schema-validation error taxonomy: a declared column missing from the
input, or a null in a column declared non-nullable. -/
inductive SchemaErr where
  | missingColumn (c : String)
  | nonNullableNull (c : String)
deriving DecidableEq

/-- The nullability check of the pandera schema validation: the first
declared non-nullable column containing a null fails the batch. -/
def nullabilityCheck (schema : List (String × Bool)) (df : Batch) :
    Except SchemaErr Batch :=
  match schema.find? (fun s => (! s.2) && (getCol df s.1).any (fun v => v.isNone)) with
  | some s => Except.error (SchemaErr.nonNullableNull s.1)
  | none => Except.ok df

/-- validate_raw_data: select exactly the declared columns (a missing
declared column aborts with an error naming it), run the per-source
preprocess on the column-restricted batch, then validate nullability.
A schema entry is (column name, nullable). -/
def validate_raw_data (schema : List (String × Bool)) (preprocess : Batch → Batch)
    (df : Batch) : Except SchemaErr Batch :=
  match firstMissing (schema.map Prod.fst) df with
  | some c => Except.error (SchemaErr.missingColumn c)
  | none => nullabilityCheck schema (preprocess (selectColumns (schema.map Prod.fst) df))

end Validation

/-! Concrete inputs used by the closed parts of the claims, the witnesses and
the counterexample. -/

/-- A canonical row with the given identifier, measure type and max speed
(the remaining fields are fixed representative values). -/
def mkRow (ident : String) (t : MeasureType) (speed : Option Int) : RegulationMeasure :=
  { period_start_date := some ("2024-01-01T00:00:00Z")
    period_end_date := none
    period_start_time := none
    period_end_time := none
    period_recurrence_type := some ("everyDay")
    period_is_permanent := some true
    location_road_type := "rawGeoJson"
    location_label := some ("D 323")
    location_geometry := "{}"
    regulation_identifier := ident
    regulation_category := "permanentRegulation"
    regulation_subject := "other"
    regulation_title := "title"
    regulation_other_category_text := "Circulation"
    measure_type_ := t
    measure_max_speed := speed
    vehicle_all_vehicles := false
    vehicle_heavyweight_max_weight := none
    vehicle_max_height := none
    vehicle_max_width := none
    vehicle_exempted_types := some []
    vehicle_restricted_types := some ["dimensions"]
    vehicle_other_exempted_type_text := none }

/-- A speed-limitation row with no max speed: its measure construction
fails. -/
def c6_fail : RegulationMeasure := mkRow ("grp") MeasureType.speedLimitation none

/-- A no-entry row in the same group: its measure construction succeeds. -/
def c6_ok : RegulationMeasure := mkRow ("grp") MeasureType.noEntry none

/-- A group whose first row fails measure construction and whose second row
survives. -/
def c6_group : List RegulationMeasure := [c6_fail, c6_ok]

/-- Batch with two regulation groups, first ordering. -/
def c5_rows₁ : List RegulationMeasure :=
  [mkRow ("ra") MeasureType.noEntry none, mkRow ("rb") MeasureType.noEntry none]

/-- The same batch with its two rows swapped. -/
def c5_rows₂ : List RegulationMeasure :=
  [mkRow ("rb") MeasureType.noEntry none, mkRow ("ra") MeasureType.noEntry none]

/-- The vehicle-set collapse example: all_vehicles true, every dimension
null, both type lists empty. -/
def ex_vehicle_row : RegulationMeasure :=
  { mkRow ("veh") MeasureType.noEntry none with
    vehicle_all_vehicles := true
    vehicle_exempted_types := some []
    vehicle_restricted_types := some [] }

/-- A dp_sarthes row with speed 150 (above the cap). -/
def exV150 : DpSarthes.SartheRow :=
  { loc_txt := some ("Route de Paris"), vitesse := some 150, longueur := some ("100") }

/-- A dp_sarthes row with speed 130 (at the cap). -/
def exV130 : DpSarthes.SartheRow :=
  { loc_txt := some ("Route de Paris"), vitesse := some 130, longueur := some ("100") }

/-- A gabarits row with tonnage 7.5 tons. -/
def exT75 : Gabarits.GabaritsRow :=
  { objectid := 1, nature := none, site := none,
    tonnage := some (15 / 2 : ℚ), hauteur := some 0, largeur := some 0 }

/-- A gabarits row with tonnage, hauteur and largeur all 0. -/
def exT0 : Gabarits.GabaritsRow :=
  { objectid := 2, nature := none, site := none,
    tonnage := some 0, hauteur := some 0, largeur := some 0 }

/-! Helper lemmas. -/

/-- Membership in the duplicate anti-join: a row survives exactly when it was
in the batch and its key occurs exactly once. -/
theorem mem_anti_join_dups {ρ α : Type} [DecidableEq α] (key : ρ → α) (rows : List ρ)
    (r : ρ) :
    r ∈ anti_join_dups key rows ↔ r ∈ rows ∧ keyCount key rows (key r) = 1 := by
  have hdup : key r ∈ duplicated_ids key rows ↔
      (key r ∈ (rows.map key).dedup ∧ 1 < keyCount key rows (key r)) := by
    unfold duplicated_ids
    rw [List.mem_filter]
    simp
  constructor
  · intro h
    unfold anti_join_dups at h
    rw [List.mem_filter] at h
    obtain ⟨hr, hd⟩ := h
    rw [decide_eq_true_eq] at hd
    refine ⟨hr, ?_⟩
    have h1 : 0 < keyCount key rows (key r) := by
      unfold keyCount
      rw [List.countP_pos_iff]
      exact ⟨r, hr, by simp⟩
    by_contra hne
    exact hd (hdup.mpr ⟨List.mem_dedup.mpr (List.mem_map_of_mem key hr), by omega⟩)
  · intro h
    obtain ⟨hr, hc⟩ := h
    unfold anti_join_dups
    rw [List.mem_filter]
    refine ⟨hr, ?_⟩
    rw [decide_eq_true_eq]
    intro hd
    have := (hdup.mp hd).2
    omega

/-- A natural number below `10 ^ 20` has at most 20 decimal digits. -/
theorem natDecimalDigits_length_le (n : Nat) (h : n < 10 ^ 20) :
    (natDecimalDigits n).length ≤ 20 := by
  unfold natDecimalDigits
  by_cases h0 : n = 0
  · simp [h0]
  · rw [if_neg h0, List.length_reverse, List.length_map]
    by_contra hlen
    push_neg at hlen
    have hle : 10 ^ (Nat.digits 10 n).length ≤ 10 * n :=
      Nat.base_pow_length_digits_le 10 n (by norm_num) h0
    have hp : (10 : ℕ) ^ 21 ≤ 10 ^ (Nat.digits 10 n).length :=
      Nat.pow_le_pow_right (by norm_num) hlen
    have heq : (10 : ℕ) ^ 21 = 10 * 10 ^ 20 := by ring
    omega

/-! Claim theorems. -/

/-- C1: integrate_regulations submits exactly the assembled regulations whose
(suffixed) identifier is not in the fetched remote set; when every identifier
is already remote, nothing is submitted (idempotence of a repeated run). -/
theorem integrate_regulations_diff :
    ∀ (regs : List Regulation) (remote : List String),
      (∀ r, r ∈ Base.integrate_regulations regs remote ↔
        (r ∈ Base.suffix_regulations regs ∧ r.identifier ∉ remote))
      ∧ ((∀ r ∈ Base.suffix_regulations regs, r.identifier ∈ remote) →
          Base.integrate_regulations regs remote = []) := by
  intro regs remote
  have hmem : ∀ r, r ∈ Base.integrate_regulations regs remote ↔
      (r ∈ Base.suffix_regulations regs ∧ r.identifier ∉ remote) := by
    intro r
    unfold Base.integrate_regulations Base.regulations_to_integrate
    rw [List.mem_filter]
    constructor
    · intro h
      obtain ⟨hr, hd⟩ := h
      rw [decide_eq_true_eq] at hd
      unfold Base.regulation_ids_to_integrate at hd
      rw [List.mem_filter] at hd
      exact ⟨hr, by simpa using hd.2⟩
    · intro h
      obtain ⟨hr, hni⟩ := h
      refine ⟨hr, ?_⟩
      rw [decide_eq_true_eq]
      unfold Base.regulation_ids_to_integrate
      rw [List.mem_filter]
      exact ⟨List.mem_map_of_mem (fun r => r.identifier) hr, by simpa using hni⟩
  refine ⟨hmem, ?_⟩
  intro hall
  rw [List.eq_nil_iff_forall_not_mem]
  intro r hr
  have h := (hmem r).mp hr
  exact h.2 (hall r h.1)

/-- C2: in both duplicate-dropping stages (derived id for dp_sarthes, carried
objectid for restriction gabarits), a row survives exactly when its
identifier occurs once; every row of a colliding identifier is absent. -/
theorem dedup_drops_all_colliding_rows :
    ∀ (hash : Option String → Nat) (rows : List DpSarthes.SartheRow)
      (gab : List Gabarits.GabaritsRow),
      (∀ p, p ∈ DpSarthes.build_id_and_drop_duplicates hash rows ↔
        (p ∈ rows.map (fun r => (r, DpSarthes.buildId hash r))
          ∧ keyCount Prod.snd (rows.map (fun r => (r, DpSarthes.buildId hash r))) p.2 = 1))
      ∧ (∀ i, 1 < keyCount Prod.snd (rows.map (fun r => (r, DpSarthes.buildId hash r))) i →
          ∀ p ∈ DpSarthes.build_id_and_drop_duplicates hash rows, p.2 ≠ i)
      ∧ (Gabarits.compute_regulation_fields gab
          = (anti_join_dups Gabarits.GabaritsRow.objectid gab).map
              (fun r => (r, Gabarits.regulation_fields_of r)))
      ∧ (∀ r, r ∈ anti_join_dups Gabarits.GabaritsRow.objectid gab ↔
          (r ∈ gab ∧ keyCount Gabarits.GabaritsRow.objectid gab r.objectid = 1)) := by
  intro hash rows gab
  refine ⟨?_, ?_, rfl, ?_⟩
  · intro p
    exact mem_anti_join_dups Prod.snd (rows.map (fun r => (r, DpSarthes.buildId hash r))) p
  · intro i hi p hp hpi
    have h := ((mem_anti_join_dups Prod.snd
      (rows.map (fun r => (r, DpSarthes.buildId hash r))) p).mp hp).2
    rw [hpi] at h
    omega
  · intro r
    exact mem_anti_join_dups Gabarits.GabaritsRow.objectid gab r

/-- C3: the derived identifier is deterministic in the discriminating fields,
but it is the decimal rendering of a 64-bit hash: at most 20 characters for
every possible hash value, never the 32 characters the documentation
promises (the slice to width 32 never truncates or pads anything). -/
theorem build_id_length_and_determinism :
    ∀ (hash : Option String → Nat) (r s : DpSarthes.SartheRow),
      ((DpSarthes.buildId hash r).length ≤ 20
        ∧ (DpSarthes.buildId hash r).length ≠ 32)
      ∧ (DpSarthes.rowKey r = DpSarthes.rowKey s →
          DpSarthes.buildId hash r = DpSarthes.buildId hash s)
      ∧ (r.loc_txt = s.loc_txt → r.vitesse = s.vitesse → r.longueur = s.longueur →
          DpSarthes.buildId hash r = DpSarthes.buildId hash s) := by
  intro hash r s
  have hlen : (DpSarthes.buildId hash r).length ≤ 20 := by
    unfold DpSarthes.buildId
    have hmod : hash (DpSarthes.rowKey r) % 2 ^ 64 < 10 ^ 20 := by
      have h1 : hash (DpSarthes.rowKey r) % 2 ^ 64 < 2 ^ 64 :=
        Nat.mod_lt _ (by norm_num)
      have h2 : (2 : ℕ) ^ 64 < 10 ^ 20 := by norm_num
      omega
    have hd := natDecimalDigits_length_le _ hmod
    have hs : (String.mk ((natDecimalDigits (hash (DpSarthes.rowKey r) % 2 ^ 64)).take 32)).length
        = ((natDecimalDigits (hash (DpSarthes.rowKey r) % 2 ^ 64)).take 32).length := rfl
    rw [hs, List.length_take]
    omega
  refine ⟨⟨hlen, by omega⟩, ?_, ?_⟩
  · intro hk
    unfold DpSarthes.buildId
    rw [hk]
  · intro h1 h2 h3
    unfold DpSarthes.buildId DpSarthes.rowKey
    rw [h1, h2, h3]

/-- C4: the `-0` suffix policy is specific to the base-integration path: that
path appends it to every regulation it submits, while the dp_sarthes path
submits row identifiers unchanged — and a suffixed identifier is never equal
to the unsuffixed one, so the policy is not universal. -/
theorem suffix_policy_source_specific :
    (∀ regs : List Regulation,
      (Base.suffix_regulations regs).map Regulation.identifier
        = regs.map (fun r => r.identifier ++ "-0"))
    ∧ (∀ rows : List DpSarthes.SartheCleanRow,
        (DpSarthes.create_regulations rows).map Regulation.identifier
          = rows.map DpSarthes.SartheCleanRow.id)
    ∧ (∀ s : String, s ++ "-0" ≠ s) := by
  refine ⟨?_, ?_, ?_⟩
  · intro regs
    unfold Base.suffix_regulations
    rw [List.map_map]
    rfl
  · intro rows
    unfold DpSarthes.create_regulations
    rw [List.map_map]
    rfl
  · intro s h
    have hl := congrArg String.length h
    rw [String.length_append] at hl
    have h2 : ("-0" : String).length = 2 := rfl
    omega

/-- The summary of the regulation a group yields, for a group whose rows all
carry the identifier `i`: nothing when no measure survives, otherwise the
identifier with the surviving measure count. -/
theorem regulation_of_group_summary (i : String) (g : List RegulationMeasure)
    (hall : ∀ r ∈ g, r.regulation_identifier = i) :
    (Base.regulation_of_group g).map Base.reg_summary
      = if g.filterMap Base.create_measure = [] then none
        else some (i, (g.filterMap Base.create_measure).length) := by
  match g with
  | [] => simp [Base.regulation_of_group]
  | first :: rest =>
    have hid : first.regulation_identifier = i := hall first (by simp)
    by_cases hnil : (first :: rest).filterMap Base.create_measure = []
    · simp [Base.regulation_of_group, hnil]
    · simp [Base.regulation_of_group, hnil, Base.reg_summary, hid]

/-- Permuting the rows inside one identifier group does not change the
group's summary. -/
theorem regulation_summary_perm (i : String) (g₁ g₂ : List RegulationMeasure)
    (hp : g₁.Perm g₂) (hall : ∀ r ∈ g₁, r.regulation_identifier = i) :
    (Base.regulation_of_group g₁).map Base.reg_summary
      = (Base.regulation_of_group g₂).map Base.reg_summary := by
  have hall₂ : ∀ r ∈ g₂, r.regulation_identifier = i := fun r hr =>
    hall r (hp.mem_iff.mpr hr)
  rw [regulation_of_group_summary i g₁ hall, regulation_of_group_summary i g₂ hall₂]
  have hm : (g₁.filterMap Base.create_measure).Perm (g₂.filterMap Base.create_measure) :=
    hp.filterMap Base.create_measure
  have hlen := hm.length_eq
  by_cases hnil : g₁.filterMap Base.create_measure = []
  · have h0 : (g₂.filterMap Base.create_measure).length = 0 := by
      rw [← hlen, hnil]
      rfl
    rw [if_pos hnil, if_pos (List.length_eq_zero.mp h0)]
  · have hnil₂ : g₂.filterMap Base.create_measure ≠ [] := by
      intro h
      rw [h] at hlen
      exact hnil (List.length_eq_zero.mp hlen)
    rw [if_neg hnil, if_neg hnil₂, hlen]

/-- C5 (amended): the regulation assembly is deterministic at the set level —
row permutations of the batch and any group orders the unordered group_by
may emit yield the same multiset of (identifier, measure count) summaries.
The order of the emitted list itself is settled only by the engine's group
order (see the counterexample for its instability). -/
theorem create_regulations_summary_perm
    (rows₁ rows₂ : List RegulationMeasure) (o₁ o₂ : List String)
    (hrows : rows₁.Perm rows₂)
    (h₁ : o₁.Perm (Base.group_keys rows₁)) (h₂ : o₂.Perm (Base.group_keys rows₂)) :
    ((Base.create_regulations o₁ rows₁).map Base.reg_summary).Perm
      ((Base.create_regulations o₂ rows₂).map Base.reg_summary) := by
  have e : ∀ (o : List String) (rows : List RegulationMeasure),
      (Base.create_regulations o rows).map Base.reg_summary
        = o.filterMap (fun i =>
            (Base.regulation_of_group (Base.group_rows rows i)).map Base.reg_summary) := by
    intro o rows
    unfold Base.create_regulations
    rw [List.map_filterMap]
  rw [e o₁ rows₁, e o₂ rows₂]
  have hfun : (fun i =>
        (Base.regulation_of_group (Base.group_rows rows₁ i)).map Base.reg_summary)
      = (fun i =>
        (Base.regulation_of_group (Base.group_rows rows₂ i)).map Base.reg_summary) := by
    funext i
    apply regulation_summary_perm i
    · exact hrows.filter (fun r => decide (r.regulation_identifier = i))
    · intro r hr
      unfold Base.group_rows at hr
      rw [List.mem_filter] at hr
      simpa using hr.2
  rw [hfun]
  have ho : o₁.Perm o₂ := by
    have hk : (Base.group_keys rows₁).Perm (Base.group_keys rows₂) := by
      unfold Base.group_keys
      exact (hrows.map (fun r => r.regulation_identifier)).dedup
    exact h₁.trans (hk.trans h₂.symm)
  exact ho.filterMap _

/-- Witness for C5: the permutation invariance evaluated on a concrete
two-group batch presented in two row orders and two group orders. -/
theorem create_regulations_summary_perm_witness :
    ((Base.create_regulations (["ra", "rb"]) c5_rows₁).map Base.reg_summary).Perm
      ((Base.create_regulations (["rb", "ra"]) c5_rows₂).map Base.reg_summary) :=
  create_regulations_summary_perm c5_rows₁ c5_rows₂ (["ra", "rb"]) (["rb", "ra"])
    (by decide) (by decide) (by decide)

/-- Counterexample for C5 as stated: on one and the same batch, two group
orders the unordered group_by may emit (both permutations of the key set)
produce the regulation list in different orders, so identical runs are not
guaranteed an identical submission order. -/
theorem create_regulations_order_unstable :
    ((["ra", "rb"]).Perm (Base.group_keys c5_rows₁)
      ∧ (["rb", "ra"]).Perm (Base.group_keys c5_rows₁))
    ∧ Base.create_regulations (["ra", "rb"]) c5_rows₁
        ≠ Base.create_regulations (["rb", "ra"]) c5_rows₁ := by
  exact ⟨⟨by decide, by decide⟩, by decide⟩

/-- C6: in a regulation group, rows whose measure construction fails are
skipped without aborting the group; a group with no surviving measure yields
no regulation; otherwise the group yields exactly one regulation whose
regulation-level fields come from the first row of the group and whose
measures are the surviving ones. -/
theorem regulation_of_group_first_row (g : List RegulationMeasure)
    (first : RegulationMeasure) (rest : List RegulationMeasure)
    (hg : g = first :: rest) :
    (Base.regulation_of_group g = none ↔ g.filterMap Base.create_measure = [])
    ∧ (g.filterMap Base.create_measure ≠ [] →
        Base.regulation_of_group g
          = some { identifier := first.regulation_identifier
                   category := first.regulation_category
                   status := "draft"
                   subject := first.regulation_subject
                   title := first.regulation_title
                   other_category_text := first.regulation_other_category_text
                   measures := g.filterMap Base.create_measure }) := by
  subst hg
  constructor
  · by_cases hnil : (first :: rest).filterMap Base.create_measure = []
    · simp [Base.regulation_of_group, hnil]
    · simp [Base.regulation_of_group, hnil]
  · intro hne
    simp [Base.regulation_of_group, hne]

/-- Witness for C6: a concrete group whose first row is a speed-limitation
row without a max speed (its measure construction fails) and whose second
row survives: the group still yields one regulation, with the fields of the
failing first row. -/
theorem regulation_of_group_first_row_witness :
    (Base.regulation_of_group c6_group = none
      ↔ c6_group.filterMap Base.create_measure = [])
    ∧ (c6_group.filterMap Base.create_measure ≠ [] →
        Base.regulation_of_group c6_group
          = some { identifier := c6_fail.regulation_identifier
                   category := c6_fail.regulation_category
                   status := "draft"
                   subject := c6_fail.regulation_subject
                   title := c6_fail.regulation_title
                   other_category_text := c6_fail.regulation_other_category_text
                   measures := c6_group.filterMap Base.create_measure }) :=
  regulation_of_group_first_row c6_group c6_fail ([c6_ok]) rfl

/-- C7: the heavyweight bound is tonnage × 1000 (tons to kilograms, exact)
when tonnage is present and strictly positive and null otherwise; hauteur
and largeur pass through under the same positivity rule; a raw 0 therefore
never survives into a canonical vehicle field. In particular tonnage 7.5
gives 7500 and tonnage 0 gives null. -/
theorem compute_vehicle_fields_spec :
    (∀ r : Gabarits.GabaritsRow,
      (∀ t, r.tonnage = some t →
        (Gabarits.compute_vehicle_fields r).vehicle_heavyweight_max_weight
          = if 0 < t then some (t * 1000) else none)
      ∧ (r.tonnage = none →
          (Gabarits.compute_vehicle_fields r).vehicle_heavyweight_max_weight = none)
      ∧ (∀ x, r.hauteur = some x →
          (Gabarits.compute_vehicle_fields r).vehicle_max_height
            = if 0 < x then some x else none)
      ∧ (r.hauteur = none →
          (Gabarits.compute_vehicle_fields r).vehicle_max_height = none)
      ∧ (∀ x, r.largeur = some x →
          (Gabarits.compute_vehicle_fields r).vehicle_max_width
            = if 0 < x then some x else none)
      ∧ (r.largeur = none →
          (Gabarits.compute_vehicle_fields r).vehicle_max_width = none)
      ∧ (r.tonnage = some 0 →
          (Gabarits.compute_vehicle_fields r).vehicle_heavyweight_max_weight = none)
      ∧ (r.hauteur = some 0 →
          (Gabarits.compute_vehicle_fields r).vehicle_max_height = none)
      ∧ (r.largeur = some 0 →
          (Gabarits.compute_vehicle_fields r).vehicle_max_width = none))
    ∧ (Gabarits.compute_vehicle_fields exT75).vehicle_heavyweight_max_weight = some 7500
    ∧ (Gabarits.compute_vehicle_fields exT0).vehicle_heavyweight_max_weight = none
    ∧ (Gabarits.compute_vehicle_fields exT0).vehicle_max_height = none
    ∧ (Gabarits.compute_vehicle_fields exT0).vehicle_max_width = none := by
  refine ⟨?_, ?_, by decide, by decide, by decide⟩
  · intro r
    refine ⟨?_, ?_, ?_, ?_, ?_, ?_, ?_, ?_, ?_⟩
    · intro t ht
      simp [Gabarits.compute_vehicle_fields, ht]
    · intro ht
      simp [Gabarits.compute_vehicle_fields, ht]
    · intro x hx
      simp [Gabarits.compute_vehicle_fields, hx]
    · intro hx
      simp [Gabarits.compute_vehicle_fields, hx]
    · intro x hx
      simp [Gabarits.compute_vehicle_fields, hx]
    · intro hx
      simp [Gabarits.compute_vehicle_fields, hx]
    · intro ht
      simp [Gabarits.compute_vehicle_fields, ht]
    · intro hx
      simp [Gabarits.compute_vehicle_fields, hx]
    · intro hx
      simp [Gabarits.compute_vehicle_fields, hx]
  · norm_num [Gabarits.compute_vehicle_fields, exT75]

/-- C8: create_save_vehicle_dto drops exactly the fields whose value is
null, the empty list or the empty mapping; every emitted field is
non-empty; and when the only surviving field is all_vehicles = true the
result collapses to the minimal all-vehicles set — as on the concrete
example row. -/
theorem create_save_vehicle_dto_spec :
    (∀ m : RegulationMeasure,
      (∀ kv, kv ∈ Base.cleaned_vehicle_fields m ↔
        (kv ∈ Base.vehicle_fields m ∧ Base.vehValueEmpty kv.2 = false))
      ∧ (∀ kv, kv ∈ Base.create_save_vehicle_dto m → Base.vehValueEmpty kv.2 = false)
      ∧ ((Base.lookupField ("all_vehicles") (Base.cleaned_vehicle_fields m)
            = some (VehValue.b true)
          ∧ (Base.cleaned_vehicle_fields m).length = 1) →
          Base.create_save_vehicle_dto m = [("all_vehicles", VehValue.b true)]))
    ∧ Base.create_save_vehicle_dto ex_vehicle_row = [("all_vehicles", VehValue.b true)] := by
  refine ⟨?_, by decide⟩
  intro m
  have hmem : ∀ kv, kv ∈ Base.cleaned_vehicle_fields m ↔
      (kv ∈ Base.vehicle_fields m ∧ Base.vehValueEmpty kv.2 = false) := by
    intro kv
    unfold Base.cleaned_vehicle_fields
    rw [List.mem_filter]
    simp
  refine ⟨hmem, ?_, ?_⟩
  · intro kv hkv
    by_cases hc : Base.lookupField ("all_vehicles") (Base.cleaned_vehicle_fields m)
        = some (VehValue.b true) ∧ (Base.cleaned_vehicle_fields m).length = 1
    · unfold Base.create_save_vehicle_dto at hkv
      rw [if_pos hc] at hkv
      simp at hkv
      rw [hkv]
      rfl
    · unfold Base.create_save_vehicle_dto at hkv
      rw [if_neg hc] at hkv
      exact ((hmem kv).mp hkv).2
  · intro hc
    unfold Base.create_save_vehicle_dto
    rw [if_pos hc]

/-- C9: validate_raw_data fails, naming the column, as soon as a declared
column is absent from the input; otherwise it restricts the batch to exactly
the declared columns (extra columns dropped without error), runs the
per-source preprocess on the restricted batch and only then performs the
nullability check. -/
theorem validate_raw_data_spec :
    ∀ (schema : List (String × Bool)) (preprocess : Validation.Batch → Validation.Batch)
      (df : Validation.Batch),
      (∀ c, Validation.firstMissing (schema.map Prod.fst) df = some c →
        (Validation.validate_raw_data schema preprocess df
            = Except.error (Validation.SchemaErr.missingColumn c)
          ∧ c ∈ schema.map Prod.fst ∧ Validation.hasCol df c = false))
      ∧ (Validation.firstMissing (schema.map Prod.fst) df = none →
          (Validation.validate_raw_data schema preprocess df
              = Validation.nullabilityCheck schema
                  (preprocess (Validation.selectColumns (schema.map Prod.fst) df))
            ∧ (Validation.selectColumns (schema.map Prod.fst) df).cols.map Prod.fst
                = schema.map Prod.fst)) := by
  intro schema preprocess df
  constructor
  · intro c hc
    refine ⟨?_, ?_, ?_⟩
    · unfold Validation.validate_raw_data
      rw [hc]
    · exact List.mem_of_find?_eq_some hc
    · have h := List.find?_some hc
      simpa using h
  · intro h
    refine ⟨?_, ?_⟩
    · unfold Validation.validate_raw_data
      rw [h]
    · unfold Validation.selectColumns
      rw [List.map_map]
      simp

/-- A row passes the compute_vitesse filter exactly when its cast speed is
present, positive and at most 130. -/
theorem vitesse_valid_iff (r : DpSarthes.SartheRow) :
    (! DpSarthes.vitesseInvalid r) = true ↔
      ∃ v, r.vitesse = some v ∧ 0 < v ∧ v ≤ 130 := by
  unfold DpSarthes.vitesseInvalid
  cases hv : r.vitesse with
  | none => simp
  | some v =>
    simp

/-- C10: compute_vitesse keeps exactly the rows whose cast VITESSE is
non-null, strictly positive and at most 130; in particular a 150 km/h row is
removed and a 130 km/h row is kept. -/
theorem compute_vitesse_spec :
    (∀ (rows : List DpSarthes.SartheRow) (r : DpSarthes.SartheRow),
      r ∈ DpSarthes.compute_vitesse rows ↔
        (r ∈ rows ∧ ∃ v, r.vitesse = some v ∧ 0 < v ∧ v ≤ 130))
    ∧ DpSarthes.compute_vitesse [exV150] = []
    ∧ DpSarthes.compute_vitesse [exV130] = [exV130] := by
  refine ⟨?_, by decide, by decide⟩
  intro rows r
  unfold DpSarthes.compute_vitesse
  rw [List.mem_filter]
  exact and_congr_right fun _ => vitesse_valid_iff r

end DialogIntegrations
